import Mathlib

/-!
Shallow embedding of the content-derivation engine of `src/draw_matrix.cc`
(the transit information board). The pixel/hardware layer (`rgb-matrix`),
glyph rendering and the OS signal handling are external collaborators and
are not modelled; everything with decision logic is translated:

* the colour constants and the ticker construction `update_scroll_messages`
  (lines 104-182 of the source);
* the per-frame ticker scroll step of the main loop (lines 406-423);
* the countdown computation of the primary ("A") layout: day rollover,
  `diff_seconds` / `diff_minutes`, tier colouring, and the substitute
  destination field (lines 288-344 and 360-382);
* the JSON loading helper `load_json` (lines 86-101).

Modelling conventions:
* `nlohmann::json` documents are translated to typed records whose fields
  are `Option String` (a `none` field models an absent key; `j.value(k, d)`
  becomes `Option.getD`); a whole document is `Option`-wrapped, `none`
  standing for the `null` json produced by a failed load.
* C `struct tm` values are the record `Tm` over `Int` fields; `mktime`
  followed by `difftime` is modelled by the linear second count
  `tmToSeconds` (the month and year fields are never modified by the code,
  and the target locale has no daylight-saving jumps, so `mktime`
  normalisation is exactly linear in `mday`, `hour`, `min`, `sec`).
* `static_cast<int>` applied to the exact quotient `diff_seconds / 60.0`
  truncates towards zero and is modelled by `Int.tdiv` (the magnitudes
  involved make the double division exact up to far below 1/60).
* `std::string::size()` counts UTF-8 bytes; `utf8Len` reproduces that
  count from the characters.
-/

namespace DrawMatrix

/-- RGB colour triple, mirroring `struct ColorRGB { uint8_t r, g, b; }`. -/
structure ColorRGB where
  r : Nat
  g : Nat
  b : Nat
deriving DecidableEq

def COL_BLACK : ColorRGB := ⟨0, 0, 0⟩

def COL_WHITE : ColorRGB := ⟨255, 255, 255⟩

def COL_RED : ColorRGB := ⟨255, 0, 0⟩

def COL_GREEN : ColorRGB := ⟨0, 255, 0⟩

def COL_BLUE : ColorRGB := ⟨0, 0, 255⟩

def COL_MAGENTA : ColorRGB := ⟨255, 0, 255⟩

def COL_ORANGE : ColorRGB := ⟨255, 172, 0⟩

def COL_YELLOW : ColorRGB := ⟨255, 255, 0⟩

def COL_CYAN : ColorRGB := ⟨0, 255, 255⟩

/-- One entry of the `suspend` or `delay` arrays of the OperationStatus
document: `{name, detail}`, each key possibly absent. -/
structure OpItem where
  name : Option String
  detail : Option String
deriving DecidableEq

/-- The OperationStatus document. A `none` list models the key being
absent or not an array (the code guards with `contains` + `is_array`). -/
structure OperationDoc where
  suspend : Option (List OpItem)
  delay : Option (List OpItem)
deriving DecidableEq

/-- The WeatherReport document fields read by the code. -/
structure WeatherDoc where
  area_name : Option String
  weather : Option String
  publishing_office : Option String
  report_time : Option String
deriving DecidableEq

/-- One `segments` element of a departure entry. -/
structure Segment where
  type : Option String
  destination : Option String
deriving DecidableEq

/-- One value of the DepartureBoard mapping. -/
structure DepEntry where
  departure_time : Option String
  status : Option String
  segments : Option (List Segment)
deriving DecidableEq

/-- The three loaded documents held in `DisplayData`. The departure board
is an ordered association list (json objects preserve document order for
iteration in this picture); `none` models a `null` document. -/
structure DisplayData where
  departure : Option (List (String × DepEntry))
  operation : Option OperationDoc
  weather : Option WeatherDoc
deriving DecidableEq

/-- The fields of `localtime` used by the date ticker item. -/
structure DateInfo where
  mon : Nat
  mday : Nat
  wday : Fin 7
deriving DecidableEq

/-- Two-digit zero padding, mirroring the `%02d` format. -/
def pad2 (n : Nat) : String :=
  if n < 10 then "0" ++ toString n else toString n

def wday_name : List String :=
  ["日", "月", "火", "水", "木", "金", "土"]

def wdayName (i : Fin 7) : String :=
  wday_name.get ⟨i.1, i.2⟩

/-- The always-present date ticker item, from the `sprintf` at lines
117-120: 本日は MM月DD日（weekday）です. -/
def date_message (dt : DateInfo) : String :=
  "本日は " ++ pad2 (dt.mon + 1) ++ "月" ++ pad2 dt.mday ++ "日（" ++ wdayName dt.wday ++ "）です"

/-- Suspension ticker text (line 136). -/
def suspendMessage (item : OpItem) : String :=
  "【運転見合わせ】 " ++ item.name.getD ("") ++ ": " ++ item.detail.getD ("詳細不明")

/-- Delay ticker text (line 147). -/
def delayMessage (item : OpItem) : String :=
  "【遅延】 " ++ item.name.getD ("") ++ ": " ++ item.detail.getD ("詳細不明")

/-- Weather ticker text (line 162). -/
def weatherMessage (w : WeatherDoc) : String :=
  "【" ++ w.publishing_office.getD (" 気象庁") ++ " " ++ w.report_time.getD (" ")
    ++ "発表】" ++ w.area_name.getD ("不明") ++ "の天気: " ++ w.weather.getD ("不明")

def ERROR_MESSAGE : String :=
  "エラーが発生しています。情報が取得できていません"

def NORMAL_MESSAGE : String :=
  "平常運転"

/-- The pair of parallel vectors `scroll_messages` / `scroll_colors`. -/
structure TickerState where
  msgs : List String
  cols : List ColorRGB
deriving DecidableEq

/-- One lock-step pair of `push_back` calls. -/
def push (s : TickerState) (m : String) (c : ColorRGB) : TickerState :=
  ⟨s.msgs ++ [m], s.cols ++ [c]⟩

/-- The `data.departure.is_null() || data.departure.empty()` test. -/
def departureNullOrEmpty (d : DisplayData) : Bool :=
  match d.departure with
  | none => true
  | some l => l.isEmpty

/-- `update_scroll_messages` (lines 104-182): clears both vectors, pushes
the date item, one item per suspension, one per delay, the weather
summary when the weather document is non-null, the error item when the
departure board is null or empty, and the 平常運転 fallback when the list
is still empty at that point. -/
def update_scroll_messages (dt : DateInfo) (d : DisplayData) : TickerState :=
  let s : TickerState := ⟨[], []⟩
  let s := push s (date_message dt) COL_WHITE
  let s :=
    match d.operation with
    | none => s
    | some op =>
      let s :=
        match op.suspend with
        | none => s
        | some items => items.foldl (fun st item => push st (suspendMessage item) COL_RED) s
      match op.delay with
      | none => s
      | some items => items.foldl (fun st item => push st (delayMessage item) COL_YELLOW) s
  let s :=
    match d.weather with
    | none => s
    | some w => push s (weatherMessage w) COL_WHITE
  let s :=
    if departureNullOrEmpty d then push s ERROR_MESSAGE COL_RED else s
  if s.msgs.isEmpty then push s NORMAL_MESSAGE COL_GREEN else s

/-- UTF-8 byte count of one character (how `std::string` stores it). -/
def charBytes (c : Char) : Nat :=
  if c.val < 0x80 then 1 else if c.val < 0x800 then 2 else if c.val < 0x10000 then 3 else 4

/-- UTF-8 byte count of a string: the value of `msg.size()` in the C++
scroll test. -/
def utf8Len (s : String) : Nat :=
  s.data.foldl (fun n c => n + charBytes c) 0

/-- Ticker cursor owned by the frame loop: `scroll_x` and `msg_index`. -/
structure ScrollState where
  scroll_x : Int
  msg_index : Nat
deriving DecidableEq

/-- The index the frame actually draws: the loop first wraps `msg_index`
to 0 when it is at or past the end of the list (line 408). -/
def drawnIndex (msgs : List String) (s : ScrollState) : Nat :=
  if msgs.length ≤ s.msg_index then 0 else s.msg_index

def emptyStr : String := ""

/-- One frame of the ticker logic (lines 406-423): wrap the index, draw
`msgs[idx]` at `scroll_x`, decrement, and once `scroll_x < -(size*6)`
advance to the next item and reset the offset to the display width. -/
def scrollStep (msgs : List String) (width : Int) (s : ScrollState) : ScrollState :=
  let idx := drawnIndex msgs s
  let msg := msgs.getD idx emptyStr
  let x := s.scroll_x - 1
  if x < -(6 * (utf8Len msg : Int)) then ⟨width, idx + 1⟩ else ⟨x, idx⟩

/-- The `struct tm` fields modified or read by the countdown computation.
Month and year are copied unchanged from `localtime` and cancel in the
`difftime` subtraction, so they are omitted. -/
structure Tm where
  mday : Int
  hour : Int
  min : Int
  sec : Int
deriving DecidableEq

/-- Seconds represented by a (possibly denormalised) `tm`, as `mktime`
normalises and converts it — linear because no field beyond `mday` is
ever touched and the locale has no DST. -/
def tmToSeconds (t : Tm) : Int :=
  ((t.mday * 24 + t.hour) * 60 + t.min) * 60 + t.sec

/-- The candidate departure instant `tm_dep` (lines 306-318): current day
at `dep_hour:dep_min:00`, moved to the next day when the parsed hour is
before 3 and the current hour is at least 3. -/
def tm_dep (dep_hour dep_min : Int) (now : Tm) : Tm :=
  let d : Tm := ⟨now.mday, dep_hour, dep_min, 0⟩
  if dep_hour < 3 ∧ 3 ≤ now.hour then ⟨d.mday + 1, d.hour, d.min, d.sec⟩ else d

/-- `difftime(t_dep, t_now)` (line 321). -/
def diff_seconds (dep_hour dep_min : Int) (now : Tm) : Int :=
  tmToSeconds (tm_dep dep_hour dep_min now) - tmToSeconds now

/-- `static_cast<int>(diff_seconds / 60.0) + 1` (line 322): the cast
truncates the exact quotient towards zero, which is `Int.tdiv`. -/
def diff_minutes (dep_hour dep_min : Int) (now : Tm) : Int :=
  Int.tdiv (diff_seconds dep_hour dep_min now) 60 + 1

/-- The countdown text and colour of the primary layout (lines 288-344).
`parsed` is the result of `sscanf(dep_time, "%d:%d")`: `none` when fewer
than two integers were converted. The parse-failure branch leaves the
colour at its `COL_GREEN` initialisation. -/
def time_display (status : String) (parsed : Option (Int × Int)) (now : Tm) : String × ColorRGB :=
  if status = "始発" then ("始発", COL_BLUE)
  else if status = "終電" then ("終電", COL_RED)
  else
    match parsed with
    | some (dep_hour, dep_min) =>
      let dm := diff_minutes dep_hour dep_min now
      if dm > 99 then ("始発", COL_BLUE)
      else (toString dm ++ "分後",
        if dm ≤ 17 then COL_RED else if dm ≤ 20 then COL_YELLOW else COL_GREEN)
    | none => ("--:--", COL_GREEN)

/-- The right-aligned field of the primary layout (lines 367-382): the
literal destination in orange, replaced by an urgency phrase when the
countdown colour equals the critical red or the warning yellow (the code
compares the three colour components). -/
def dest_display (destination : String) (time_col : ColorRGB) : String × ColorRGB :=
  if time_col = COL_RED then ("駅まで走れ", COL_RED)
  else if time_col = COL_YELLOW then ("今すぐ出発", COL_YELLOW)
  else (destination, COL_ORANGE)

/-- Urgency tiers named by the specification, tagging the branches of the
countdown computation. -/
inductive UrgencyTier where
  | FIRST_TRAIN
  | LAST_TRAIN
  | CRITICAL
  | WARNING
  | NORMAL
  | UNKNOWN
deriving DecidableEq

/-- Which branch of the countdown computation an entry takes, named with
the specification's tier vocabulary: the 始発/終電 short-circuits, the
`> 99` not-yet-scheduled case, the two urgency thresholds, the in-schedule
case, and the parse-failure placeholder. -/
def tierOf (status : String) (parsed : Option (Int × Int)) (now : Tm) : UrgencyTier :=
  if status = "始発" then UrgencyTier.FIRST_TRAIN
  else if status = "終電" then UrgencyTier.LAST_TRAIN
  else
    match parsed with
    | some (dep_hour, dep_min) =>
      let dm := diff_minutes dep_hour dep_min now
      if dm > 99 then UrgencyTier.FIRST_TRAIN
      else if dm ≤ 17 then UrgencyTier.CRITICAL
      else if dm ≤ 20 then UrgencyTier.WARNING
      else UrgencyTier.NORMAL
    | none => UrgencyTier.UNKNOWN

/-- Content handed to the json extraction operator: either text that makes
the parser throw, or text parsing to a document. -/
inductive FileContent (α : Type) where
  | bad
  | good (doc : α)

/-- Result of attempting to open the file behind a path: the stream fails
to open (missing or unreadable file) or yields content. -/
inductive FileAccess (α : Type) where
  | missing
  | unreadable
  | stream (content : FileContent α)

/-- The `std::ifstream` open step: `is_open()` is false for a missing or
unreadable file. -/
def openFile {α : Type} : FileAccess α → Option (FileContent α)
  | FileAccess.missing => none
  | FileAccess.unreadable => none
  | FileAccess.stream s => some s

/-- The `i >> j` extraction, which throws (modelled by `Except.error`) on
malformed content. -/
def readJson {α : Type} : FileContent α → Except String α
  | FileContent.bad => Except.error ("parse error")
  | FileContent.good d => Except.ok d

/-- `load_json` (lines 86-101): returns null (`none`) when the stream does
not open, catches every exception of the extraction and returns null, and
otherwise returns the parsed document. Its result type carries no error,
so no exception reaches the caller. -/
def load_json {α : Type} (f : FileAccess α) : Option α :=
  match openFile f with
  | none => none
  | some st =>
    match readJson st with
    | Except.error _ => none
    | Except.ok j => some j

/-- Suspension items contributing to the ticker: none when the operation
document is null or its `suspend` key is absent/not an array. -/
def suspend_items (d : DisplayData) : List OpItem :=
  match d.operation with
  | none => []
  | some op => op.suspend.getD []

/-- Delay items contributing to the ticker. -/
def delay_items (d : DisplayData) : List OpItem :=
  match d.operation with
  | none => []
  | some op => op.delay.getD []

/-- The weather segment of the ticker: one summary message when a weather
document is present. -/
def weather_msgs (d : DisplayData) : List String :=
  match d.weather with
  | none => []
  | some w => [weatherMessage w]

/-- The error segment of the ticker: the literal error message exactly
when the departure board is null or empty. -/
def error_msgs (d : DisplayData) : List String :=
  if departureNullOrEmpty d then [ERROR_MESSAGE] else []

theorem foldl_push {β : Type} (f : β → String) (c : ColorRGB) (l : List β) (s : TickerState) :
    l.foldl (fun st item => push st (f item) c) s =
      ⟨s.msgs ++ l.map f, s.cols ++ l.map (fun _ => c)⟩ := by
  induction l generalizing s with
  | nil => simp
  | cons a t ih =>
    rw [List.foldl_cons, ih]
    simp [push]

/-- The ticker state rebuilt by `update_scroll_messages` is the
concatenation of its five segments; the 平常運転 fallback never fires
because the date item is always present. -/
theorem update_scroll_messages_eq (dt : DateInfo) (d : DisplayData) :
    update_scroll_messages dt d =
      ⟨[date_message dt] ++ (suspend_items d).map suspendMessage
          ++ (delay_items d).map delayMessage ++ weather_msgs d ++ error_msgs d,
        [COL_WHITE] ++ (suspend_items d).map (fun _ => COL_RED)
          ++ (delay_items d).map (fun _ => COL_YELLOW)
          ++ (weather_msgs d).map (fun _ => COL_WHITE)
          ++ (error_msgs d).map (fun _ => COL_RED)⟩ := by
  rcases d with ⟨dep, op, w⟩
  cases hd : departureNullOrEmpty ⟨dep, op, w⟩ <;>
    rcases op with _ | ⟨su, de⟩ <;>
    (try rcases su with _ | sl) <;>
    (try rcases de with _ | dl) <;>
    rcases w with _ | wd <;>
    simp only [update_scroll_messages, foldl_push] <;>
    simp [push, hd, suspend_items, delay_items, weather_msgs, error_msgs]

/-- C7: for every combination of present/absent input documents, the
rebuilt ticker list is ordered exactly as: the date item first, then one
item per suspension in input order, then one item per delay in input
order, then the weather summary when a weather document exists, then the
error item when the departure board is null/empty; the normal-operation
fallback clause contributes nothing because the list at that point is
never empty. The colour list runs in lockstep: white, red per suspension,
yellow per delay, white for weather, red for the error item. -/
theorem C7_ticker_order (dt : DateInfo) (d : DisplayData) :
    (update_scroll_messages dt d).msgs =
      [date_message dt] ++ (suspend_items d).map suspendMessage
        ++ (delay_items d).map delayMessage ++ weather_msgs d ++ error_msgs d ∧
    (update_scroll_messages dt d).cols =
      [COL_WHITE] ++ (suspend_items d).map (fun _ => COL_RED)
        ++ (delay_items d).map (fun _ => COL_YELLOW)
        ++ (weather_msgs d).map (fun _ => COL_WHITE)
        ++ (error_msgs d).map (fun _ => COL_RED) := by
  rw [update_scroll_messages_eq]
  exact ⟨rfl, rfl⟩

/-- C8: whenever the departure board document is null or empty, the
rebuilt ticker contains the literal error message in red, regardless of
the operation and weather documents, and every other item is kept: the
list is exactly the usual segments with the error item appended. -/
theorem C8_error_item (dt : DateInfo) (d : DisplayData)
    (h : departureNullOrEmpty d = true) :
    (update_scroll_messages dt d).msgs =
      [date_message dt] ++ (suspend_items d).map suspendMessage
        ++ (delay_items d).map delayMessage ++ weather_msgs d ++ [ERROR_MESSAGE] ∧
    (update_scroll_messages dt d).cols =
      [COL_WHITE] ++ (suspend_items d).map (fun _ => COL_RED)
        ++ (delay_items d).map (fun _ => COL_YELLOW)
        ++ (weather_msgs d).map (fun _ => COL_WHITE) ++ [COL_RED] ∧
    ERROR_MESSAGE ∈ (update_scroll_messages dt d).msgs := by
  rw [update_scroll_messages_eq]
  refine ⟨?_, ?_, ?_⟩ <;> simp [error_msgs, h]

/-- C8 witness: with every document missing, the error message is in the
rebuilt ticker. -/
theorem C8_witness :
    ERROR_MESSAGE ∈ (update_scroll_messages ⟨0, 1, (0 : Fin 7)⟩ ⟨none, none, none⟩).msgs :=
  (C8_error_item ⟨0, 1, (0 : Fin 7)⟩ ⟨none, none, none⟩ rfl).2.2

/-- C2 counterexample: with no suspensions, no delays, no weather report
and a non-empty departure board, the rebuilt ticker's single item is the
date item, not the 平常運転 item the claim asserts — the fallback branch
is unreachable because the date item is always present. -/
theorem C2_counterexample :
    update_scroll_messages ⟨0, 1, (0 : Fin 7)⟩
        ⟨some [(("東京"), ⟨none, none, none⟩)], none, none⟩ =
      ⟨[date_message ⟨0, 1, (0 : Fin 7)⟩], [COL_WHITE]⟩ ∧
    NORMAL_MESSAGE ∉ (update_scroll_messages ⟨0, 1, (0 : Fin 7)⟩
      ⟨some [(("東京"), ⟨none, none, none⟩)], none, none⟩).msgs := by
  decide

/-- C2 amended: for every input with no suspensions, no delays, no
weather report and a non-empty departure board, the rebuilt ticker
contains exactly one item — the always-present date item in white; the
平常運転 fallback never appears because the date item makes the list
non-empty before the fallback test. -/
theorem C2_quiet_ticker (dt : DateInfo) (d : DisplayData)
    (hs : suspend_items d = []) (hdl : delay_items d = [])
    (hw : d.weather = none) (hne : departureNullOrEmpty d = false) :
    update_scroll_messages dt d = ⟨[date_message dt], [COL_WHITE]⟩ := by
  rw [update_scroll_messages_eq, hs, hdl]
  simp [weather_msgs, hw, error_msgs, hne]

/-- C2 witness: a concrete quiet input yields exactly the date item. -/
theorem C2_witness :
    update_scroll_messages ⟨4, 5, (2 : Fin 7)⟩
        ⟨some [(("池袋"), ⟨none, none, none⟩)], none, none⟩ =
      ⟨[date_message ⟨4, 5, (2 : Fin 7)⟩], [COL_WHITE]⟩ :=
  C2_quiet_ticker ⟨4, 5, (2 : Fin 7)⟩ ⟨some [(("池袋"), ⟨none, none, none⟩)], none, none⟩
    rfl rfl rfl rfl

/-- C9: `load_json` never propagates an exception to its caller — its
result type carries no error; a missing file, an unreadable file and a
parse error (the extraction's thrown exception, caught by the handler)
each yield the null result, and a successfully parsed file yields its
document. -/
theorem C9_load_never_throws (α : Type) (doc : α) :
    load_json (FileAccess.missing : FileAccess α) = none ∧
    load_json (FileAccess.unreadable : FileAccess α) = none ∧
    load_json (FileAccess.stream FileContent.bad : FileAccess α) = none ∧
    load_json (FileAccess.stream (FileContent.good doc)) = some doc :=
  ⟨rfl, rfl, rfl, rfl⟩

/-- C10: after every rebuild of the ticker, the message list and the
colour list have the same length and the message list is non-empty, so
an index that is in bounds for the message list is also in bounds for
the colour list — the per-frame colour lookup, bounds-checked only
against the message list, cannot go out of range. -/
theorem C10_parallel_invariant (dt : DateInfo) (d : DisplayData) :
    (update_scroll_messages dt d).msgs.length = (update_scroll_messages dt d).cols.length ∧
    (update_scroll_messages dt d).msgs ≠ [] ∧
    ∀ i : Nat, i < (update_scroll_messages dt d).msgs.length →
      i < (update_scroll_messages dt d).cols.length := by
  rw [update_scroll_messages_eq]
  refine ⟨?_, ?_, ?_⟩
  · simp
  · simp
  · intro i hi
    simpa using lt_of_lt_of_le hi (by simp)

/-- C10 witness: a concrete rebuilt ticker has a colour for index 0. -/
theorem C10_witness :
    0 < (update_scroll_messages ⟨11, 30, (6 : Fin 7)⟩ ⟨none, none, none⟩).cols.length :=
  (C10_parallel_invariant ⟨11, 30, (6 : Fin 7)⟩ ⟨none, none, none⟩).2.2 0 (by decide)

/-- C5: for every parsed departure hour/minute and every current time,
the candidate departure instant is moved to the next calendar day exactly
when the parsed hour is strictly below 3 and the current hour is at least
3; in every other combination the candidate keeps the current day. -/
theorem C5_rollover (dep_hour dep_min : Int) (now : Tm) :
    ((tm_dep dep_hour dep_min now).mday = now.mday + 1 ↔ dep_hour < 3 ∧ 3 ≤ now.hour) ∧
    (¬(dep_hour < 3 ∧ 3 ≤ now.hour) →
      tm_dep dep_hour dep_min now = ⟨now.mday, dep_hour, dep_min, 0⟩) := by
  unfold tm_dep
  by_cases h : dep_hour < 3 ∧ 3 ≤ now.hour
  · rw [if_pos h]
    exact ⟨by simp [h], fun hc => absurd h hc⟩
  · rw [if_neg h]
    refine ⟨?_, fun _ => rfl⟩
    simp only [h, iff_false]
    omega

/-- C5 witness: at current time 03:00 a 02:59 departure rolls to the next
day and a 03:00 departure does not. -/
theorem C5_witness :
    (tm_dep 2 59 ⟨10, 3, 0, 0⟩).mday = 10 + 1 ∧
    tm_dep 3 0 ⟨10, 3, 0, 0⟩ = ⟨10, 3, 0, 0⟩ :=
  ⟨(C5_rollover 2 59 ⟨10, 3, 0, 0⟩).1.mpr (by decide),
    (C5_rollover 3 0 ⟨10, 3, 0, 0⟩).2 (by decide)⟩

/-- C6 counterexample: the claim's floor formula fails for a departure in
the past. At current time 11:01:30 a 10:00 departure gives
diff_seconds = −3690; the code's int cast truncates −61.5 towards zero,
so minutes_until is −60, while floor(−3690/60) + 1 = −61. -/
theorem C6_counterexample :
    diff_minutes 10 0 ⟨0, 11, 1, 30⟩ = -60 ∧
    Int.fdiv (diff_seconds 10 0 ⟨0, 11, 1, 30⟩) 60 + 1 = -61 ∧
    diff_minutes 10 0 ⟨0, 11, 1, 30⟩ ≠
      Int.fdiv (diff_seconds 10 0 ⟨0, 11, 1, 30⟩) 60 + 1 := by
  refine ⟨by decide, by decide, by decide⟩

/-- C6 amended: minutes_until equals the quotient of
(candidate − now) in seconds by 60 truncated towards zero, plus 1 (the
`static_cast<int>` of C); this coincides with floor(...) + 1 whenever the
departure is not in the past, and a departure exactly 30 seconds in the
future yields minutes_until = 1. -/
theorem C6_minutes_formula (dep_hour dep_min : Int) (now : Tm) :
    diff_minutes dep_hour dep_min now =
      Int.tdiv (diff_seconds dep_hour dep_min now) 60 + 1 ∧
    (0 ≤ diff_seconds dep_hour dep_min now →
      diff_minutes dep_hour dep_min now =
        Int.fdiv (diff_seconds dep_hour dep_min now) 60 + 1) ∧
    (diff_seconds dep_hour dep_min now = 30 → diff_minutes dep_hour dep_min now = 1) := by
  refine ⟨rfl, ?_, ?_⟩
  · intro h
    unfold diff_minutes
    rw [← Int.fdiv_eq_tdiv h (by omega)]
  · intro h
    unfold diff_minutes
    rw [h]
    decide

/-- C6 witness: a departure 30 seconds in the future reads as 1 minute. -/
theorem C6_witness : diff_minutes 10 0 ⟨0, 9, 59, 30⟩ = 1 :=
  (C6_minutes_formula 10 0 ⟨0, 9, 59, 30⟩).2.2 (by decide)

/-- C4: for every departure whose status is neither 始発 (first train)
nor 終電 (last train) and whose time parses, the tier is a function of
minutes_until with closed boundaries: above 99 it is FIRST_TRAIN, at most
17 CRITICAL, 18 through 20 WARNING, and 21 through 99 NORMAL. -/
theorem C4_tier_thresholds (status : String) (dep_hour dep_min : Int) (now : Tm)
    (h1 : status ≠ "始発") (h2 : status ≠ "終電") :
    (tierOf status (some (dep_hour, dep_min)) now = UrgencyTier.FIRST_TRAIN ↔
      99 < diff_minutes dep_hour dep_min now) ∧
    (tierOf status (some (dep_hour, dep_min)) now = UrgencyTier.CRITICAL ↔
      diff_minutes dep_hour dep_min now ≤ 17) ∧
    (tierOf status (some (dep_hour, dep_min)) now = UrgencyTier.WARNING ↔
      18 ≤ diff_minutes dep_hour dep_min now ∧ diff_minutes dep_hour dep_min now ≤ 20) ∧
    (tierOf status (some (dep_hour, dep_min)) now = UrgencyTier.NORMAL ↔
      21 ≤ diff_minutes dep_hour dep_min now ∧ diff_minutes dep_hour dep_min now ≤ 99) := by
  simp only [tierOf, h1, h2, if_false]
  split_ifs with hA hB hC <;>
    refine ⟨?_, ?_, ?_, ?_⟩ <;> simp <;> omega

/-- C4 witness: 17 minutes is CRITICAL, 18 is WARNING, via the boundary
characterisation at concrete clock times. -/
theorem C4_witness :
    tierOf ("") (some (10, 0)) ⟨0, 9, 43, 0⟩ = UrgencyTier.WARNING ∧
    tierOf ("") (some (10, 0)) ⟨0, 9, 44, 0⟩ = UrgencyTier.CRITICAL :=
  ⟨(C4_tier_thresholds ("") 10 0 ⟨0, 9, 43, 0⟩ (by decide) (by decide)).2.2.1.mpr (by decide),
    (C4_tier_thresholds ("") 10 0 ⟨0, 9, 44, 0⟩ (by decide) (by decide)).2.1.mpr (by decide)⟩

theorem dest_display_red (dest : String) :
    dest_display dest COL_RED = ("駅まで走れ", COL_RED) := by
  unfold dest_display
  rw [if_pos rfl]

theorem dest_display_yellow (dest : String) :
    dest_display dest COL_YELLOW = ("今すぐ出発", COL_YELLOW) := by
  unfold dest_display
  rw [if_neg (by decide), if_pos rfl]

theorem dest_display_blue (dest : String) :
    dest_display dest COL_BLUE = (dest, COL_ORANGE) := by
  unfold dest_display
  rw [if_neg (by decide), if_neg (by decide)]

theorem dest_display_green (dest : String) :
    dest_display dest COL_GREEN = (dest, COL_ORANGE) := by
  unfold dest_display
  rw [if_neg (by decide), if_neg (by decide)]

/-- C1 counterexample: a last-train entry shares the critical red colour,
so the primary layout replaces its literal destination by the 駅まで走れ
substitute phrase, contradicting the claim that every tier other than
CRITICAL/WARNING shows the literal destination. -/
theorem C1_counterexample :
    tierOf ("終電") (some (23, 50)) ⟨0, 12, 0, 0⟩ = UrgencyTier.LAST_TRAIN ∧
    dest_display ("東京") (time_display ("終電") (some (23, 50)) ⟨0, 12, 0, 0⟩).2 =
      ("駅まで走れ", COL_RED) ∧
    ("駅まで走れ" : String) ≠ "東京" := by
  refine ⟨by decide, by decide, by decide⟩

/-- C1 amended: the right-aligned field of the primary layout substitutes
an urgency phrase exactly when the countdown colour is the critical red
or the warning yellow — that is, when the tier is CRITICAL, WARNING, or
LAST_TRAIN (whose colour is the same red); for FIRST_TRAIN, NORMAL and
UNKNOWN the literal destination is shown in orange. -/
theorem C1_substitute_rule (status : String) (parsed : Option (Int × Int)) (now : Tm)
    (destination : String) :
    dest_display destination (time_display status parsed now).2 =
      (if tierOf status parsed now = UrgencyTier.CRITICAL ∨
          tierOf status parsed now = UrgencyTier.LAST_TRAIN
        then ("駅まで走れ", COL_RED)
        else if tierOf status parsed now = UrgencyTier.WARNING
        then ("今すぐ出発", COL_YELLOW)
        else (destination, COL_ORANGE)) := by
  unfold time_display tierOf
  by_cases h1 : status = "始発"
  · simp [h1, dest_display_blue]
  by_cases h2 : status = "終電"
  · simp [h1, h2, dest_display_red]
  rcases parsed with _ | ⟨dep_hour, dep_min⟩
  · simp [h1, h2, dest_display_green]
  simp only [h1, h2, if_false]
  split_ifs with hA hB hC <;>
    simp_all [dest_display_blue, dest_display_red, dest_display_yellow, dest_display_green]

set_option maxRecDepth 8000 in
/-- C3 counterexample: with display width D = 4 and the message "ab"
(byte width W = 12), after D + W = 16 frames the composer is still on the
same item — it has not yet advanced — and it advances only on frame
D + W + 1 = 17, refuting "exactly D + W horizontal steps". -/
theorem C3_counterexample :
    ((scrollStep (["ab"]) (4 : Int))^[4 + 6 * utf8Len ("ab")] ⟨(4 : Int), 0⟩).msg_index = 0 ∧
    (scrollStep (["ab"]) (4 : Int))^[4 + 6 * utf8Len ("ab") + 1] ⟨(4 : Int), 0⟩ =
      ⟨(4 : Int), 1⟩ := by
  refine ⟨by decide, by decide⟩

/-- C3 amended: starting from a freshly reset offset D on item i of byte
pixel-width W = 6·size, the item is drawn for exactly D + W + 1 frames —
the offsets D, D−1, …, −W inclusive — with the index unchanged; on frame
D + W + 1 the composer advances to the next item and resets the offset to
D, and the advancing index wraps from the last item to the first (the
drawn index is (i+1) mod length). -/
theorem C3_scroll_count (msgs : List String) (i D : Nat) (hi : i < msgs.length) :
    (∀ k : Nat, k ≤ D + 6 * utf8Len (msgs.getD i emptyStr) →
      (scrollStep msgs (D : Int))^[k] ⟨(D : Int), i⟩ =
        ⟨(D : Int) - (k : Int), i⟩) ∧
    (scrollStep msgs (D : Int))^[D + 6 * utf8Len (msgs.getD i emptyStr) + 1]
        ⟨(D : Int), i⟩ = ⟨(D : Int), i + 1⟩ ∧
    drawnIndex msgs ((scrollStep msgs (D : Int))^[D + 6 * utf8Len (msgs.getD i emptyStr) + 1]
        ⟨(D : Int), i⟩) = (i + 1) % msgs.length := by
  have hidx : ¬ (msgs.length ≤ i) := Nat.not_le.mpr hi
  have main : ∀ k : Nat, k ≤ D + 6 * utf8Len (msgs.getD i emptyStr) →
      (scrollStep msgs (D : Int))^[k] ⟨(D : Int), i⟩ = ⟨(D : Int) - (k : Int), i⟩ := by
    intro k
    induction k with
    | zero => intro _; simp
    | succ k ih =>
      intro hk
      rw [Function.iterate_succ_apply', ih (Nat.le_of_succ_le hk)]
      simp only [scrollStep, drawnIndex, if_neg hidx]
      rw [if_neg (by omega)]
      refine congrArg₂ ScrollState.mk ?_ rfl
      push_cast
      omega
  have h2 : (scrollStep msgs (D : Int))^[D + 6 * utf8Len (msgs.getD i emptyStr) + 1]
      ⟨(D : Int), i⟩ = ⟨(D : Int), i + 1⟩ := by
    rw [Function.iterate_succ_apply', main _ (le_refl _)]
    simp only [scrollStep, drawnIndex, if_neg hidx]
    rw [if_pos (by omega)]
  refine ⟨main, h2, ?_⟩
  rw [h2]
  unfold drawnIndex
  by_cases hlen : msgs.length ≤ i + 1
  · have he : i + 1 = msgs.length := le_antisymm hi hlen
    rw [if_pos hlen, he, Nat.mod_self]
  · rw [if_neg hlen, Nat.mod_eq_of_lt (Nat.not_le.mp hlen)]

/-- C3 witness: the amended count at the concrete width 4 and message
"ab" — the advance happens on frame 4 + 12 + 1. -/
theorem C3_witness :
    (scrollStep (["ab"]) ((4 : Nat) : Int))^[4 + 6 * utf8Len ((["ab"] : List String).getD 0 emptyStr) + 1]
        ⟨((4 : Nat) : Int), 0⟩ = ⟨((4 : Nat) : Int), 0 + 1⟩ :=
  (C3_scroll_count ["ab"] 0 4 (by decide)).2.1

end DrawMatrix
